import Mathlib

/-!
Verification development for the tech-talk content reviewer.

The Python sources (src/content_reviewer.py and src/api.py) are embedded
shallowly below. Strings are modelled as Lean strings and manipulated through
their character lists; Python integers become Int or Nat; the regular
expression based placeholder patterns are embedded twice, both executable:
as existence matchers deciding, for each fixed pattern of the source,
whether re.search would succeed on the (already lower-cased) content, used
where the source only tests for a match, and as a findall model returning
the matched substrings in scan order, used where the source consumes the
match list. All inputs exercised by the claims are ASCII, so the ASCII
models of str.lower, str.strip and str.split used here agree with Python.
-/

/-- Characters treated as whitespace by the Python str.strip and str.split
methods (ASCII fragment: space, tab, newline, carriage return, vertical tab,
form feed). -/
def pyIsSpace (c : Char) : Bool :=
  c == ' ' || c == '\t' || c == '\n' || c == '\r' || c == Char.ofNat 11 || c == Char.ofNat 12

/-- Python str.strip on a character list: drop whitespace from both ends. -/
def stripChars (l : List Char) : List Char :=
  ((l.dropWhile pyIsSpace).reverse.dropWhile pyIsSpace).reverse

/-- Python str.strip on strings. -/
def pyStrip (s : String) : String := String.mk (stripChars s.data)

/-- ASCII lower-casing of one character, the fragment of str.lower used by
the reviewer (all keywords and claim inputs are ASCII). -/
def lowerChar (c : Char) : Char :=
  if 'A' ≤ c ∧ c ≤ 'Z' then Char.ofNat (c.toNat + 32) else c

/-- Python content.lower() on the ASCII fragment. -/
def lowerStr (s : String) : String := String.mk (s.data.map lowerChar)

/-- Helper for pyWordCount: counts maximal runs of non-whitespace characters;
the flag records whether the previous character was inside a word. -/
def wordCountAux : Bool → List Char → Nat
  | _, [] => 0
  | inWord, c :: rest =>
    if pyIsSpace c then wordCountAux false rest
    else (if inWord then 0 else 1) + wordCountAux true rest

/-- Python len(content.split()): number of whitespace-delimited tokens. -/
def pyWordCount (s : String) : Nat := wordCountAux false s.data

/-- Decides whether the first list is a prefix of the second. -/
def startsWithL : List Char → List Char → Bool
  | [], _ => true
  | _ :: _, [] => false
  | a :: as, b :: bs => a == b && startsWithL as bs

/-- Checks a predicate at every suffix of the list (including the empty one). -/
def scanHasAt (p : List Char → Bool) : List Char → Bool
  | [] => p []
  | c :: rest => p (c :: rest) || scanHasAt p rest

/-- Substring containment: Python sub in s. -/
def containsSub (sub s : List Char) : Bool := scanHasAt (startsWithL sub) s

/-- Python sub in s on strings. -/
def strIn (sub s : String) : Bool := containsSub sub.data s.data

/-- Python line splitting, content.split with a newline separator:
keeps empty pieces, one extra empty piece for a trailing newline. -/
def consLine (c : Char) (acc : List (List Char)) : List (List Char) :=
  if c = '\n' then [] :: acc
  else
    match acc with
    | [] => [[c]]
    | h :: t => (c :: h) :: t

/-- Splits a character list at newline characters, Python style. -/
def splitLines : List Char → List (List Char)
  | [] => [[]]
  | c :: rest => consLine c (splitLines rest)

/-- Word character in the sense of the regex word boundary anchor
(ASCII letters, digits, underscore). -/
def isWordChar (c : Char) : Bool :=
  ('a' ≤ c && c ≤ 'z') || ('A' ≤ c && c ≤ 'Z') || ('0' ≤ c && c ≤ '9') || c == '_'

/-- A word boundary holds before the current position when there is no
previous character or the previous character is not a word character. -/
def prevNonWord : Option Char → Bool
  | none => true
  | some c => !isWordChar c

/-- A word boundary holds after a match when the remaining input is empty or
starts with a non-word character. -/
def nextNonWord : List Char → Bool
  | [] => true
  | c :: _ => !isWordChar c

/-- Scans all positions of the input, passing the previous character to the
position check, used for patterns anchored by word boundaries. -/
def wbScan (check : Option Char → List Char → Bool) : Option Char → List Char → Bool
  | _, [] => false
  | prev, c :: rest => check prev (c :: rest) || wbScan check (some c) rest

/-- Position check for a fixed keyword wrapped in word boundaries. -/
def wbKwAt (kw : List Char) (prev : Option Char) (suf : List Char) : Bool :=
  prevNonWord prev && startsWithL kw suf && nextNonWord (suf.drop kw.length)

/-- Checks a predicate at every suffix of the current line, stopping at a
newline; models a regex dot-star gap followed by the predicate. -/
def sameLineScan (p : List Char → Bool) : List Char → Bool
  | [] => false
  | c :: rest => p (c :: rest) || (c != '\n' && sameLineScan p rest)

/-- Opening curly brace character, written numerically. -/
def openBrace : Char := Char.ofNat 123

/-- Closing curly brace character, written numerically. -/
def closeBrace : Char := Char.ofNat 125

/-- Position check for the insert-dot-star-here alternative of the first
placeholder pattern: word boundary, the word insert, a same-line gap, the
word here, then a word boundary. -/
def insertHereAt (prev : Option Char) (suf : List Char) : Bool :=
  prevNonWord prev && startsWithL ("insert".data) suf &&
    sameLineScan (fun r => startsWithL ("here".data) r && nextNonWord (r.drop 4)) (suf.drop 6)

/-- Pattern 1 of placeholder_patterns: word-bounded stub keywords
tbd, todo, coming soon, placeholder, lorem ipsum, and insert-dot-star-here. -/
def matchStubKeywords (s : List Char) : Bool :=
  wbScan (wbKwAt ("tbd".data)) none s ||
  wbScan (wbKwAt ("todo".data)) none s ||
  wbScan (wbKwAt ("coming soon".data)) none s ||
  wbScan (wbKwAt ("placeholder".data)) none s ||
  wbScan (wbKwAt ("lorem ipsum".data)) none s ||
  wbScan insertHereAt none s

/-- Pattern 2: template variables, a double opening brace followed on the
same line by a double closing brace. -/
def matchTemplateVar (s : List Char) : Bool :=
  scanHasAt
    (fun suf => startsWithL [openBrace, openBrace] suf &&
      sameLineScan (startsWithL [closeBrace, closeBrace]) (suf.drop 2)) s

/-- Pattern 3: bracketed placeholders, an opening square bracket followed on
the same line by a closing square bracket. -/
def matchBracketed (s : List Char) : Bool :=
  scanHasAt
    (fun suf => startsWithL ['['] suf && sameLineScan (startsWithL [']']) (suf.drop 1)) s

/-- Pattern 4: a run of three or more x characters. -/
def matchTripleX (s : List Char) : Bool := containsSub ("xxx".data) s

/-- Pattern 5: a run of three or more dots. -/
def matchTripleDot (s : List Char) : Bool := containsSub ("...".data) s

/-- Pattern 6: plain substrings pending, draft, wip, work in progress. -/
def matchWip (s : List Char) : Bool :=
  containsSub ("pending".data) s || containsSub ("draft".data) s ||
  containsSub ("wip".data) s || containsSub ("work in progress".data) s

/-- Pattern 7: to be, a same-line gap, then added, written, completed or
updated. -/
def matchToBe (s : List Char) : Bool :=
  scanHasAt
    (fun suf => startsWithL ("to be".data) suf &&
      sameLineScan
        (fun r => startsWithL ("added".data) r || startsWithL ("written".data) r ||
          startsWithL ("completed".data) r || startsWithL ("updated".data) r)
        (suf.drop 5)) s

/-- Pattern 8: example, a same-line gap, then goes here, needed or tbd. -/
def matchExampleStub (s : List Char) : Bool :=
  scanHasAt
    (fun suf => startsWithL ("example".data) suf &&
      sameLineScan
        (fun r => startsWithL ("goes here".data) r || startsWithL ("needed".data) r ||
          startsWithL ("tbd".data) r)
        (suf.drop 7)) s

/-- True when some pattern of self.placeholder_patterns matches the given
lower-cased content, the condition under which re.findall returns a
non-empty list for some pattern and re.search succeeds for some pattern. -/
def anyPlaceholderPattern (s : List Char) : Bool :=
  matchStubKeywords s || matchTemplateVar s || matchBracketed s || matchTripleX s ||
  matchTripleDot s || matchWip s || matchToBe s || matchExampleStub s

/-- The quality rating enumeration of content_reviewer.py. -/
inductive QualityRating where
  | HIGH : QualityRating
  | MEDIUM : QualityRating
  | LOW : QualityRating
deriving DecidableEq

/-- The string payload of each QualityRating member. -/
def QualityRating.value : QualityRating → String
  | .HIGH => "High"
  | .MEDIUM => "Medium"
  | .LOW => "Low"

/-- The PlaceholderFlags dataclass. -/
structure PlaceholderFlags where
  has_placeholders : Bool
  details : String
deriving DecidableEq

/-- The ContentReview dataclass. -/
structure ContentReview where
  content_id : String
  title : String
  overall_rating : String
  completeness_score : Int
  placeholder_flags : PlaceholderFlags
  key_issues : List String
  suggested_fixes : List String
  evaluation_timestamp : String
deriving DecidableEq

/-- Loop body of TechTalkContentReviewer._extract_title over the first
lines: a stripped line that is non-empty and does not start with a hash is
returned truncated to 100 characters; a stripped line starting with hash
space returns its remainder re-stripped; other lines are skipped. -/
def extractLoop : List (List Char) → String
  | [] => "Untitled Content"
  | l :: rest =>
    let line := stripChars l
    if !line.isEmpty && !startsWithL ['#'] line then String.mk (line.take 100)
    else if startsWithL ['#', ' '] line then String.mk (stripChars (line.drop 2))
    else extractLoop rest

/-- TechTalkContentReviewer._extract_title: strip the content, split into
lines, scan the first 5 lines. -/
def extract_title (content : String) : String :=
  extractLoop ((splitLines (stripChars content.data)).take 5)

/-- Greedy search used to model a greedy dot-star gap before a trailing
alternative: the backtracking engine consumes the whole line, then retreats
one character at a time, so the match ends at the LAST reachable start
position on the current line where the trailing part matches. The argument
p returns the length of the trailing part at a position; the result is the
end offset of the chosen match relative to the current position. Positions
beyond a newline are unreachable because the regex dot excludes newlines. -/
def lastEndFrom (p : List Char → Option Nat) : List Char → Option Nat
  | [] => none
  | c :: rest =>
    if c = '\n' then p (c :: rest)
    else
      match lastEndFrom p rest with
      | some m => some (m + 1)
      | none => p (c :: rest)

/-- Lazy search used to model a lazy dot-star gap before a trailing
literal: the match ends at the FIRST reachable start position on the
current line where the trailing part matches. -/
def firstEndFrom (p : List Char → Option Nat) : List Char → Option Nat
  | [] => none
  | c :: rest =>
    match p (c :: rest) with
    | some m => some m
    | none =>
      if c = '\n' then none
      else
        match firstEndFrom p rest with
        | some m => some (m + 1)
        | none => none

/-- Match length of pattern 1 at a position: the alternatives of the
regex alternation are tried in order, each fixed keyword together with its
trailing word boundary, and finally insert, a greedy same-line gap, here,
and the trailing word boundary. The capture group spans the whole
alternation, so the group text re.findall collects is exactly the first
matchLen characters at the position. Every alternative starts with a word
character, so the leading word boundary is prevNonWord. -/
def matchP1At (prev : Option Char) (s : List Char) : Option Nat :=
  if !prevNonWord prev then none
  else if startsWithL ("tbd".data) s && nextNonWord (s.drop 3) then some 3
  else if startsWithL ("todo".data) s && nextNonWord (s.drop 4) then some 4
  else if startsWithL ("coming soon".data) s && nextNonWord (s.drop 11) then some 11
  else if startsWithL ("placeholder".data) s && nextNonWord (s.drop 11) then some 11
  else if startsWithL ("lorem ipsum".data) s && nextNonWord (s.drop 11) then some 11
  else if startsWithL ("insert".data) s then
    match lastEndFrom
        (fun r => if startsWithL ("here".data) r && nextNonWord (r.drop 4) then some 4 else none)
        (s.drop 6) with
    | some m => some (6 + m)
    | none => none
  else none

/-- Match length of pattern 2 at a position: double opening brace, lazy
same-line gap, double closing brace. -/
def matchP2At (s : List Char) : Option Nat :=
  if startsWithL [openBrace, openBrace] s then
    match firstEndFrom
        (fun r => if startsWithL [closeBrace, closeBrace] r then some 2 else none)
        (s.drop 2) with
    | some m => some (2 + m)
    | none => none
  else none

/-- Match length of pattern 3 at a position: opening square bracket, lazy
same-line gap, closing square bracket. -/
def matchP3At (s : List Char) : Option Nat :=
  if startsWithL ['['] s then
    match firstEndFrom (fun r => if startsWithL [']'] r then some 1 else none) (s.drop 1) with
    | some m => some (1 + m)
    | none => none
  else none

/-- Match length of pattern 4 at a position: a greedy maximal run of x
characters, at least three long. -/
def matchP4At (s : List Char) : Option Nat :=
  let n := (s.takeWhile (fun c => c == 'x')).length
  if n ≥ 3 then some n else none

/-- Match length of pattern 5 at a position: a greedy maximal run of dots,
at least three long. -/
def matchP5At (s : List Char) : Option Nat :=
  let n := (s.takeWhile (fun c => c == '.')).length
  if n ≥ 3 then some n else none

/-- Match length of pattern 6 at a position: the plain alternatives in
regex order. -/
def matchP6At (s : List Char) : Option Nat :=
  if startsWithL ("pending".data) s then some 7
  else if startsWithL ("draft".data) s then some 5
  else if startsWithL ("wip".data) s then some 3
  else if startsWithL ("work in progress".data) s then some 16
  else none

/-- Match length of pattern 7 at a position: to be, a greedy same-line gap,
then the first of added, written, completed, updated matching at the chosen
rightmost start. -/
def matchP7At (s : List Char) : Option Nat :=
  if startsWithL ("to be".data) s then
    match lastEndFrom
        (fun r => if startsWithL ("added".data) r then some 5
          else if startsWithL ("written".data) r then some 7
          else if startsWithL ("completed".data) r then some 9
          else if startsWithL ("updated".data) r then some 7
          else none)
        (s.drop 5) with
    | some m => some (5 + m)
    | none => none
  else none

/-- Match length of pattern 8 at a position: example, a greedy same-line
gap, then the first of goes here, needed, tbd matching at the chosen
rightmost start. -/
def matchP8At (s : List Char) : Option Nat :=
  if startsWithL ("example".data) s then
    match lastEndFrom
        (fun r => if startsWithL ("goes here".data) r then some 9
          else if startsWithL ("needed".data) r then some 6
          else if startsWithL ("tbd".data) r then some 3
          else none)
        (s.drop 7) with
    | some m => some (7 + m)
    | none => none
  else none

/-- The re.findall scan for one pattern: try the pattern at each position
from left to right; on a match of positive length record the matched text
and resume scanning right after it, threading the character preceding the
new position for the word-boundary checks; a zero-length match (which none
of the eight patterns can produce, the case is present for totality and
mirrors how Python advances one position past an empty match) records the
empty string and advances one position. The fuel argument only bounds the
recursion; every step consumes at least one character, so fuel equal to the
input length never runs out before the input does. -/
def findallFuel (matchAt : Option Char → List Char → Option Nat) :
    Nat → Option Char → List Char → List (List Char)
  | 0, _, _ => []
  | _ + 1, _, [] => []
  | fuel + 1, prev, c :: rest =>
    match matchAt prev (c :: rest) with
    | some (n + 1) =>
      (c :: rest).take (n + 1) ::
        findallFuel matchAt fuel ((c :: rest).get? n) ((c :: rest).drop (n + 1))
    | some 0 => [] :: findallFuel matchAt fuel (some c) rest
    | none => findallFuel matchAt fuel (some c) rest

/-- All matches of one pattern in the input, in occurrence order. -/
def findallList (matchAt : Option Char → List Char → Option Nat) (s : List Char) :
    List (List Char) :=
  findallFuel matchAt s.length none s

/-- The flat found_placeholders list of _detect_placeholders: the findall
results of the eight patterns over the lower-cased content, concatenated in
pattern order. -/
def findAllPlaceholders (s : List Char) : List String :=
  (findallList matchP1At s ++ findallList (fun _ => matchP2At) s ++
   findallList (fun _ => matchP3At) s ++ findallList (fun _ => matchP4At) s ++
   findallList (fun _ => matchP5At) s ++ findallList (fun _ => matchP6At) s ++
   findallList (fun _ => matchP7At) s ++ findallList (fun _ => matchP8At) s).map String.mk

/-- Deduplication keeping first occurrences, the model of the Python set
built over the first three matches. Python iterates a set of strings in an
order fixed by the process hash seed, which the spec notes is not
reproducible across runs; as the spec allows, this model stabilizes the
order to first occurrence. -/
def dedupFirstAux : List String → List String → List String
  | _, [] => []
  | seen, a :: rest =>
    if a ∈ seen then dedupFirstAux seen rest
    else a :: dedupFirstAux (a :: seen) rest

/-- Deduplication of a string list keeping first occurrences. -/
def dedupFirst (l : List String) : List String := dedupFirstAux [] l

/-- TechTalkContentReviewer._detect_placeholders. The flag is true when the
accumulated findall list is non-empty or short non-empty lines exceed 30
percent of all lines. The float comparison len(short) > len(lines) * 0.3 of
the source is modelled by the exact rational test 10 * short > 3 * lines;
for every line count n representable as a double, float(n * 0.3) either
equals the integer 3n/10 exactly (when 10 divides 3n, the rounding error
2n/10 * 2 ^ (-54) is below half an ulp) or lies within 1e-13 of the
non-integer rational 3n/10, so comparing it with the integer short count
agrees with the exact rational comparison. The details string joins, with
comma and space, the deduplicated first three matched substrings after the
literal prefix, then appends the short-line count message when more than 5
short sections exist, and is stripped at the end, as in the source. -/
def detect_placeholders (content : String) : PlaceholderFlags :=
  let content_lower := lowerStr content
  let found_placeholders := findAllPlaceholders content_lower.data
  let lines := splitLines content.data
  let short_sections :=
    lines.filter (fun l => decide (0 < (stripChars l).length ∧ (stripChars l).length < 20))
  let has_placeholders :=
    !found_placeholders.isEmpty || decide (10 * short_sections.length > 3 * lines.length)
  let details :=
    if !found_placeholders.isEmpty then
      "Found placeholders: " ++ String.intercalate ", " (dedupFirst (found_placeholders.take 3))
    else ""
  let details := details ++
    (if short_sections.length > 5
     then " " ++ toString short_sections.length ++ " very short lines detected" else "")
  { has_placeholders := has_placeholders, details := pyStrip details }

/-- Title bucket of the completeness score, max 10. -/
def bucketTitle (title : String) : Int :=
  if title ≠ "" ∧ (stripChars title.data).length > 5 then 10
  else if title ≠ "" then 5 else 0

/-- Overview bucket, max 15. -/
def bucketOverview (content : String) : Int :=
  let cl := lowerStr content
  if strIn "overview" cl || strIn "introduction" cl || strIn "summary" cl then 15
  else if pyWordCount content > 50 then 10 else 0

/-- Body depth bucket, max 30. -/
def bucketBody (content : String) : Int :=
  let wc := pyWordCount content
  if wc > 500 then 30 else if wc > 200 then 20 else if wc > 100 then 10 else 0

/-- Examples bucket, max 20. -/
def bucketExamples (content : String) : Int :=
  let cl := lowerStr content
  if strIn "example" cl || strIn "for instance" cl || strIn "code" cl ||
      strIn "```" cl || strIn "sample" cl then 20
  else if strIn "step" cl || strIn "how to" cl then 10 else 0

/-- References bucket, max 10; the first alternative looks at the raw
content, the second at the lower-cased content. -/
def bucketReferences (content : String) : Int :=
  let cl := lowerStr content
  if strIn "http" content || strIn "www." content || strIn "[" content then 10
  else if strIn "see also" cl || strIn "reference" cl then 5 else 0

/-- Metadata bucket, max 10. -/
def bucketMetadata (content : String) : Int :=
  let cl := lowerStr content
  if strIn "author" cl || strIn "date" cl || strIn "updated" cl ||
      strIn "version" cl || strIn "owner" cl then 10 else 0

/-- Formatting bucket, max 5, on the raw content. -/
def bucketFormatting (content : String) : Int :=
  if strIn "#" content || strIn "*" content || strIn "-" content then 5 else 0

/-- TechTalkContentReviewer._calculate_completeness_score, with the same
accumulator structure as the source. -/
def calculate_completeness_score (content title : String) : Int :=
  let content_lower := lowerStr content
  let word_count := pyWordCount content
  let score : Int := 0
  let score := score +
    (if title ≠ "" ∧ (stripChars title.data).length > 5 then 10
     else if title ≠ "" then 5 else 0)
  let score := score +
    (if strIn "overview" content_lower || strIn "introduction" content_lower ||
        strIn "summary" content_lower then 15
     else if word_count > 50 then 10 else 0)
  let score := score +
    (if word_count > 500 then 30 else if word_count > 200 then 20
     else if word_count > 100 then 10 else 0)
  let score := score +
    (if strIn "example" content_lower || strIn "for instance" content_lower ||
        strIn "code" content_lower || strIn "```" content_lower ||
        strIn "sample" content_lower then 20
     else if strIn "step" content_lower || strIn "how to" content_lower then 10 else 0)
  let score := score +
    (if strIn "http" content || strIn "www." content || strIn "[" content then 10
     else if strIn "see also" content_lower || strIn "reference" content_lower then 5 else 0)
  let score := score +
    (if strIn "author" content_lower || strIn "date" content_lower ||
        strIn "updated" content_lower || strIn "version" content_lower ||
        strIn "owner" content_lower then 10 else 0)
  let score := score +
    (if strIn "#" content || strIn "*" content || strIn "-" content then 5 else 0)
  min score 100

/-- TechTalkContentReviewer._determine_overall_rating. -/
def determine_overall_rating (score : Int) (placeholder_flags : PlaceholderFlags) : QualityRating :=
  let score := if placeholder_flags.has_placeholders then score - 20 else score
  if score ≥ 80 then QualityRating.HIGH
  else if score ≥ 50 then QualityRating.MEDIUM
  else QualityRating.LOW

/-- TechTalkContentReviewer._identify_key_issues; the score parameter is
accepted but read by no check, as in the source. -/
def identify_key_issues (content title : String) (score : Int) : List String :=
  let content_lower := lowerStr content
  let word_count := pyWordCount content
  let issues : List String := []
  let issues := issues ++
    (if title = "" ∨ (stripChars title.data).length < 5
     then ["Missing or inadequate title"] else [])
  let issues := issues ++
    (if word_count < 100
     then ["Content too brief - needs more detailed explanation"] else [])
  let issues := issues ++
    (if !(strIn "example" content_lower || strIn "code" content_lower ||
          strIn "```" content_lower)
     then ["Missing practical examples or code samples"] else [])
  let issues := issues ++
    (if !(strIn "author" content_lower || strIn "date" content_lower ||
          strIn "updated" content_lower || strIn "owner" content_lower)
     then ["Missing metadata (author, date, version info)"] else [])
  let issues := issues ++
    (if !strIn "http" content && !strIn "reference" content_lower
     then ["No external references or links provided"] else [])
  let issues := issues ++
    (if anyPlaceholderPattern content_lower.data
     then ["Contains placeholder text that needs completion"] else [])
  issues.take 5

/-- The six fixed issue messages the issue identifier can emit. -/
def possibleIssues : List String :=
  ["Missing or inadequate title",
   "Content too brief - needs more detailed explanation",
   "Missing practical examples or code samples",
   "Missing metadata (author, date, version info)",
   "No external references or links provided",
   "Contains placeholder text that needs completion"]

/-- The keyword categories of the suggestion generator, in chain order. -/
def categoryKeywords : List String :=
  ["title", "brief", "example", "metadata", "reference", "placeholder"]

/-- One step of the if-elif chain of _generate_suggestions: the suggestion
contributed by one issue string, none when no category keyword occurs in the
lower-cased issue text. -/
def suggestionFor (issue : String) : Option String :=
  let il := lowerStr issue
  if strIn "title" il then
    some "Add a clear, descriptive title that summarizes the content purpose"
  else if strIn "brief" il then
    some "Expand content with detailed explanations, use cases, and context"
  else if strIn "example" il then
    some "Include practical code examples with step-by-step explanations"
  else if strIn "metadata" il then
    some "Add document metadata: author name, creation/update dates, version"
  else if strIn "reference" il then
    some "Include relevant links to documentation, tools, or related resources"
  else if strIn "placeholder" il then
    some "Replace all placeholder text with actual content"
  else none

/-- TechTalkContentReviewer._generate_suggestions. -/
def generate_suggestions (issues : List String) (content : String) : List String :=
  let suggestions := issues.filterMap suggestionFor
  let suggestions := suggestions ++
    (if pyWordCount content < 200 then ["Consider adding troubleshooting section or FAQ"] else [])
  suggestions.take 5

/-- TechTalkContentReviewer.review_content. The two datetime.now() reads of
the source (id generation and timestamp) are passed in as the explicit clock
strings now1 and now2. -/
def review_content (content title content_id now1 now2 : String) : ContentReview :=
  let title := if title = "" then extract_title content else title
  let content_id := if content_id = "" then "content_" ++ now1 else content_id
  let placeholder_flags := detect_placeholders content
  let completeness_score := calculate_completeness_score content title
  let overall_rating := determine_overall_rating completeness_score placeholder_flags
  let key_issues := identify_key_issues content title completeness_score
  let suggested_fixes := generate_suggestions key_issues content
  { content_id := content_id
    title := title
    overall_rating := overall_rating.value
    completeness_score := completeness_score
    placeholder_flags := placeholder_flags
    key_issues := key_issues
    suggested_fixes := suggested_fixes
    evaluation_timestamp := now2 }

/-- Model of the FastAPI HTTPException value. -/
structure HTTPExceptionM where
  status_code : Nat
  detail : String
deriving DecidableEq

/-- Model of str(e) for an HTTPException: status code, colon, detail. -/
def httpExceptionStr (e : HTTPExceptionM) : String :=
  toString e.status_code ++ ": " ++ e.detail

/-- Outcome of one HTTP endpoint call: a successful review response or an
HTTP error status with its detail string. -/
inductive ApiResult where
  | success : ContentReview → ApiResult
  | httpError : Nat → String → ApiResult
deriving DecidableEq

/-- The review endpoint of src/api.py. The whole handler body runs inside a
try block whose except clause catches Exception and re-raises a 500 error
built from str(e). HTTPException subclasses Exception in Python, so the 400
raised for blank content is itself caught by that clause and converted into
the 500 error, which is what this model returns on the error path. -/
def review_endpoint (content title content_id now1 now2 : String) : ApiResult :=
  let tryBody : Except HTTPExceptionM ContentReview :=
    if (stripChars content.data).isEmpty then
      Except.error { status_code := 400, detail := "Content cannot be empty" }
    else
      Except.ok (review_content content title content_id now1 now2)
  match tryBody with
  | Except.ok r => ApiResult.success r
  | Except.error e => ApiResult.httpError 500 ("Error processing content: " ++ httpExceptionStr e)

theorem bucketTitle_bounds (t : String) : 0 ≤ bucketTitle t ∧ bucketTitle t ≤ 10 := by
  unfold bucketTitle; split <;> (try split) <;> omega

theorem bucketOverview_bounds (c : String) : 0 ≤ bucketOverview c ∧ bucketOverview c ≤ 15 := by
  unfold bucketOverview; dsimp only; split <;> (try split) <;> omega

theorem bucketBody_bounds (c : String) : 0 ≤ bucketBody c ∧ bucketBody c ≤ 30 := by
  unfold bucketBody; dsimp only; split <;> (try split) <;> (try split) <;> omega

theorem bucketExamples_bounds (c : String) : 0 ≤ bucketExamples c ∧ bucketExamples c ≤ 20 := by
  unfold bucketExamples; dsimp only; split <;> (try split) <;> omega

theorem bucketReferences_bounds (c : String) : 0 ≤ bucketReferences c ∧ bucketReferences c ≤ 10 := by
  unfold bucketReferences; dsimp only; split <;> (try split) <;> omega

theorem bucketMetadata_bounds (c : String) : 0 ≤ bucketMetadata c ∧ bucketMetadata c ≤ 10 := by
  unfold bucketMetadata; dsimp only; split <;> omega

theorem bucketFormatting_bounds (c : String) : 0 ≤ bucketFormatting c ∧ bucketFormatting c ≤ 5 := by
  unfold bucketFormatting; split <;> omega

/-- C1: the completeness score is the sum of the seven independent buckets
(Title max 10, Overview max 15, Body max 30, Examples max 20, References
max 10, Metadata max 10, Formatting max 5), clamped to at most 100, hence an
integer in the interval from 0 to 100. -/
theorem completeness_score_buckets (content title : String) :
    calculate_completeness_score content title =
      min (bucketTitle title + bucketOverview content + bucketBody content +
        bucketExamples content + bucketReferences content + bucketMetadata content +
        bucketFormatting content) 100 ∧
    0 ≤ calculate_completeness_score content title ∧
    calculate_completeness_score content title ≤ 100 ∧
    bucketTitle title ≤ 10 ∧ bucketOverview content ≤ 15 ∧ bucketBody content ≤ 30 ∧
    bucketExamples content ≤ 20 ∧ bucketReferences content ≤ 10 ∧
    bucketMetadata content ≤ 10 ∧ bucketFormatting content ≤ 5 := by
  have h1 := bucketTitle_bounds title
  have h2 := bucketOverview_bounds content
  have h3 := bucketBody_bounds content
  have h4 := bucketExamples_bounds content
  have h5 := bucketReferences_bounds content
  have h6 := bucketMetadata_bounds content
  have h7 := bucketFormatting_bounds content
  have heq : calculate_completeness_score content title =
      min (bucketTitle title + bucketOverview content + bucketBody content +
        bucketExamples content + bucketReferences content + bucketMetadata content +
        bucketFormatting content) 100 := by
    simp only [calculate_completeness_score, bucketTitle, bucketOverview, bucketBody,
      bucketExamples, bucketReferences, bucketMetadata, bucketFormatting, zero_add]
  refine ⟨heq, ?_, ?_, h1.2, h2.2, h3.2, h4.2, h5.2, h6.2, h7.2⟩ <;> rw [heq] <;> omega

/-- C2: the rating classifier subtracts 20 from the score exactly when the
placeholder flag is set, compares the adjusted value against 80 and 50, and
returns High, Medium or Low; with no placeholders, score 80 gives High,
79 gives Medium, 50 gives Medium, 49 gives Low. -/
theorem rating_thresholds (s : Int) (d : String) :
    determine_overall_rating s ⟨true, d⟩ = determine_overall_rating (s - 20) ⟨false, d⟩ ∧
    determine_overall_rating s ⟨false, d⟩ =
      (if s ≥ 80 then QualityRating.HIGH
       else if s ≥ 50 then QualityRating.MEDIUM else QualityRating.LOW) ∧
    determine_overall_rating 80 ⟨false, d⟩ = QualityRating.HIGH ∧
    determine_overall_rating 79 ⟨false, d⟩ = QualityRating.MEDIUM ∧
    determine_overall_rating 50 ⟨false, d⟩ = QualityRating.MEDIUM ∧
    determine_overall_rating 49 ⟨false, d⟩ = QualityRating.LOW := by
  exact ⟨rfl, rfl, rfl, rfl, rfl, rfl⟩

/-- C3 counterexample: the first 5 lines of this content are all blank, yet
with no supplied title the resolver returns the sixth line, not the literal
fallback, because the source strips the whole content before splitting it
into lines. -/
theorem extract_title_blank_lines_cex :
    (((splitLines ("\n\n\n\n\nHello".data)).take 5).all (fun l => (stripChars l).isEmpty)) = true ∧
    extract_title "\n\n\n\n\nHello" = "Hello" ∧
    extract_title "\n\n\n\n\nHello" ≠ "Untitled Content" := by
  exact ⟨by decide, by decide, by decide⟩

/-- C3 amended: for every content string consisting entirely of whitespace,
title resolution with no supplied title returns the literal fallback
Untitled Content. -/
theorem extract_title_whitespace_fallback (content : String)
    (h : ∀ c ∈ content.data, pyIsSpace c = true) :
    extract_title content = "Untitled Content" := by
  have hd : content.data.dropWhile pyIsSpace = [] := List.dropWhile_eq_nil_iff.mpr h
  have hs : stripChars content.data = [] := by
    unfold stripChars
    rw [hd]
    rfl
  unfold extract_title
  rw [hs]
  rfl

/-- C3 amended witness at a concrete all-whitespace input. -/
theorem extract_title_whitespace_fallback_wit :
    extract_title " \n\t \n " = "Untitled Content" :=
  extract_title_whitespace_fallback " \n\t \n " (by decide)

/-- C4: the review endpoint called with whitespace-only content. The 400
client error raised for blank content is caught by the blanket except
Exception clause of the handler, which re-raises it as a 500 processing
error, so the client receives a server-error response rather than the
client-error response the spec requires. -/
theorem review_endpoint_empty_bug :
    review_endpoint "   " "" "" "20240101_000000" "2024-01-01T00:00:00" =
      ApiResult.httpError 500 "Error processing content: 400: Content cannot be empty" := by
  rfl

/-- C5: the completeness score stored in the returned review is exactly the
scorer output on the resolved title, and the placeholder penalty shows up
only through the rating classifier inside the stored overall rating. -/
theorem stored_score_unpenalized (content title content_id now1 now2 : String) :
    (review_content content title content_id now1 now2).completeness_score =
      calculate_completeness_score content
        (if title = "" then extract_title content else title) ∧
    (review_content content title content_id now1 now2).overall_rating =
      (determine_overall_rating
        (calculate_completeness_score content
          (if title = "" then extract_title content else title))
        (detect_placeholders content)).value :=
  ⟨rfl, rfl⟩

/-- C6 counterexample: this content contains the literal substring TBD, but
embedded inside a long word, so the word-bounded regex does not match, no
other pattern matches, the single 21 character line is not a short section,
and the detector reports no placeholders. -/
theorem detect_tbd_embedded_cex :
    strIn "TBD" "qqqqqqqqqTBDqqqqqqqqq" = true ∧
    (detect_placeholders "qqqqqqqqqTBDqqqqqqqqq").has_placeholders = false := by
  exact ⟨by decide, by decide⟩

theorem matchP1At_of_wbKw (prev : Option Char) (s : List Char)
    (h : wbKwAt ("tbd".data) prev s = true) : matchP1At prev s = some 3 := by
  unfold wbKwAt at h
  have hlen : ("tbd".data).length = 3 := rfl
  rw [hlen] at h
  simp only [Bool.and_eq_true] at h
  obtain ⟨⟨h1, h2⟩, h3⟩ := h
  unfold matchP1At
  rw [h1]
  simp [h2, h3]

theorem findall_tbd_ne_nil (s : List Char) : ∀ (fuel : Nat) (prev : Option Char),
    s.length ≤ fuel →
    wbScan (wbKwAt ("tbd".data)) prev s = true →
    findallFuel matchP1At fuel prev s ≠ [] := by
  induction s with
  | nil => intro fuel prev _ h; simp [wbScan] at h
  | cons c rest ih =>
    intro fuel prev hf h
    cases fuel with
    | zero => simp at hf
    | succ f =>
      simp only [wbScan, Bool.or_eq_true] at h
      cases hm : matchP1At prev (c :: rest) with
      | some n =>
        cases n with
        | zero => simp [findallFuel, hm]
        | succ k => simp [findallFuel, hm]
      | none =>
        have h2 : wbScan (wbKwAt ("tbd".data)) (some c) rest = true := by
          rcases h with h1 | h2
          · exact absurd (matchP1At_of_wbKw prev (c :: rest) h1) (by simp [hm])
          · exact h2
        have hf2 : rest.length ≤ f := by simp at hf; omega
        simp only [findallFuel, hm]
        exact ih f (some c) hf2 h2

/-- C6 amended: for every content string in which tbd occurs as a standalone
word of the lower-cased content, that is, delimited by word boundaries as
the first placeholder pattern requires, the detector reports placeholders. -/
theorem detect_tbd_word (content : String)
    (h : wbScan (wbKwAt ("tbd".data)) none (lowerStr content).data = true) :
    (detect_placeholders content).has_placeholders = true := by
  have hne := findall_tbd_ne_nil (lowerStr content).data (lowerStr content).data.length none
    (le_refl _) h
  have hfound : (findAllPlaceholders (lowerStr content).data).isEmpty = false := by
    unfold findAllPlaceholders findallList
    cases hl : findallFuel matchP1At (lowerStr content).data.length none (lowerStr content).data with
    | nil => exact absurd hl hne
    | cons a t => simp
  simp [detect_placeholders, hfound]

/-- C6 amended witness at a concrete input with a word-bounded TBD. -/
theorem detect_tbd_word_wit :
    (detect_placeholders "Status: TBD.").has_placeholders = true :=
  detect_tbd_word "Status: TBD." (by decide)

theorem extractLoop_skip (pre rest : List (List Char))
    (h : ∀ p ∈ pre, stripChars p = [] ∨
      (startsWithL ['#'] (stripChars p) = true ∧ startsWithL ['#', ' '] (stripChars p) = false)) :
    extractLoop (pre ++ rest) = extractLoop rest := by
  induction pre with
  | nil => rfl
  | cons p ps ih =>
    have hp := h p (by simp)
    have hrest : ∀ q ∈ ps, stripChars q = [] ∨
        (startsWithL ['#'] (stripChars q) = true ∧
          startsWithL ['#', ' '] (stripChars q) = false) :=
      fun q hq => h q (List.mem_cons_of_mem p hq)
    rw [List.cons_append]
    rcases hp with h0 | ⟨h1, h2⟩
    · simp only [extractLoop, h0]
      exact ih hrest
    · simp only [extractLoop, h1, h2, Bool.not_true, Bool.and_false, Bool.false_eq_true,
        if_false]
      exact ih hrest

/-- C7 counterexample: the first line of this content is non-empty after
trimming and does not start with hash space, so the claim says it is the
title, truncated to 100 characters; the resolver instead skips it because it
starts with a bare hash, and returns the second line. -/
theorem extract_title_hash_line_cex :
    ((stripChars ("#Foo".data)).isEmpty = false ∧
      startsWithL ['#', ' '] (stripChars ("#Foo".data)) = false) ∧
    extract_title "#Foo\nBar" = "Bar" ∧ ("Bar" : String) ≠ "#Foo" := by
  exact ⟨⟨by decide, by decide⟩, by decide, by decide⟩

/-- C7 amended: scanning the first 5 lines of the whitespace-stripped
content with no supplied title, if every earlier line is blank after
trimming or starts with a bare hash that is not followed by a space, then
the first line whose trimmed form is non-empty and does not start with any
hash wins immediately and is returned truncated to 100 characters; lines
whose trimmed form starts with hash space instead win through the heading
rule, and bare-hash lines are skipped. -/
theorem extract_title_first_plain_line (content : String) (pre : List (List Char))
    (l : List Char) (post : List (List Char))
    (hsplit : (splitLines (stripChars content.data)).take 5 = pre ++ l :: post)
    (hpre : ∀ p ∈ pre, stripChars p = [] ∨
      (startsWithL ['#'] (stripChars p) = true ∧ startsWithL ['#', ' '] (stripChars p) = false))
    (hne : (stripChars l).isEmpty = false)
    (hnh : startsWithL ['#'] (stripChars l) = false) :
    extract_title content = String.mk ((stripChars l).take 100) := by
  unfold extract_title
  rw [hsplit, extractLoop_skip pre (l :: post) hpre]
  simp [extractLoop, hne, hnh]

/-- C7 amended witness at a concrete input whose first line is a bare-hash
line and whose second line is plain text. -/
theorem extract_title_first_plain_line_wit :
    extract_title "#draft\nGood Talk Notes" = "Good Talk Notes" :=
  (extract_title_first_plain_line "#draft\nGood Talk Notes" ["#draft".data]
    ("Good Talk Notes".data) [] (by decide) (by decide) (by decide) (by decide)).trans
    (by decide)

/-- C8: the key issue and suggested fix lists of every returned review have
at most 5 elements each. -/
theorem issue_lists_capped (content title content_id now1 now2 : String) :
    (review_content content title content_id now1 now2).key_issues.length ≤ 5 ∧
    (review_content content title content_id now1 now2).suggested_fixes.length ≤ 5 := by
  constructor
  · show (List.take 5 _).length ≤ 5
    rw [List.length_take]
    omega
  · show (List.take 5 _).length ≤ 5
    rw [List.length_take]
    omega

/-- C9: evaluating the same content, title and id with different clock
readings yields identical completeness score, overall rating, key issues,
suggested fixes and placeholder flags including the details string; only
the timestamp and the generated id read the clock. -/
theorem review_deterministic (content title content_id n1 n2 m1 m2 : String) :
    (review_content content title content_id n1 n2).completeness_score =
      (review_content content title content_id m1 m2).completeness_score ∧
    (review_content content title content_id n1 n2).overall_rating =
      (review_content content title content_id m1 m2).overall_rating ∧
    (review_content content title content_id n1 n2).key_issues =
      (review_content content title content_id m1 m2).key_issues ∧
    (review_content content title content_id n1 n2).suggested_fixes =
      (review_content content title content_id m1 m2).suggested_fixes ∧
    (review_content content title content_id n1 n2).placeholder_flags =
      (review_content content title content_id m1 m2).placeholder_flags :=
  ⟨rfl, rfl, rfl, rfl, rfl⟩

theorem mem_ite_singleton {c : Prop} [Decidable c] {x a : String}
    (h : x ∈ (if c then [a] else [])) : x = a := by
  by_cases hc : c
  · rw [if_pos hc] at h
    simpa using h
  · rw [if_neg hc] at h
    cases h

theorem identify_mem (content title : String) (score : Int) :
    ∀ x ∈ identify_key_issues content title score, x ∈ possibleIssues := by
  intro x hx
  unfold identify_key_issues at hx
  replace hx := List.take_subset _ _ hx
  simp only [List.nil_append, List.mem_append] at hx
  rcases hx with ((((h | h) | h) | h) | h) | h <;> rw [mem_ite_singleton h] <;> decide

theorem suggestionFor_total : ∀ x ∈ possibleIssues, (suggestionFor x).isSome = true := by
  decide

theorem filterMap_suggestion_length (l : List String)
    (h : ∀ x ∈ l, (suggestionFor x).isSome = true) :
    (l.filterMap suggestionFor).length = l.length := by
  induction l with
  | nil => rfl
  | cons a t ih =>
    have ha := h a (by simp)
    rw [List.filterMap_cons]
    cases hsa : suggestionFor a with
    | none => rw [hsa] at ha; simp at ha
    | some v =>
      simp only [List.length_cons]
      rw [ih (fun x hx => h x (by simp [hx]))]

/-- C10: every issue message the issue identifier can emit contains exactly
one of the six category keywords of the suggestion generator, so each issue
contributes exactly one suggestion, and the suggestion list for the
identified issues has length the minimum of 5 and the number of issues plus
one when the content word count is under 200. -/
theorem suggestions_length_formula :
    possibleIssues.all
      (fun i => categoryKeywords.countP (fun k => strIn k (lowerStr i)) == 1) = true ∧
    ∀ (content title : String) (score : Int),
      (generate_suggestions (identify_key_issues content title score) content).length =
        min ((identify_key_issues content title score).length +
          (if pyWordCount content < 200 then 1 else 0)) 5 := by
  refine ⟨by decide, ?_⟩
  intro content title score
  have htot : ∀ x ∈ identify_key_issues content title score, (suggestionFor x).isSome = true :=
    fun x hx => suggestionFor_total x (identify_mem content title score x hx)
  simp only [generate_suggestions]
  rw [List.length_take, List.length_append, filterMap_suggestion_length _ htot]
  have hlen : (if pyWordCount content < 200
      then ["Consider adding troubleshooting section or FAQ"] else ([] : List String)).length =
      (if pyWordCount content < 200 then 1 else 0) := by
    split <;> rfl
  rw [hlen, Nat.min_comm]
